import Mathlib

/-!
# Verification development for the diploma issuance / verification web app

Shallow embedding of the React frontend of the certificate/diploma
application (courses, templates, recipients, diploma generation, QR-based
public verification, email delivery).  Each definition mirrors one
function of the source:

* `frontend/src/lib/api.js` — the axios API client (`getAuthHeader`,
  `verifyAPI`, `diplomasAPI.sendBulkEmail`, ...);
* `frontend/src/App.js` — the route table and `ProtectedRoute`;
* `frontend/src/pages/VerifyPage.js` — `verifyDiploma`, `isValid`,
  `verificationUrl` and the QR code;
* `frontend/src/pages/Diplomas.js` — `handleSelectAll`,
  `handleBulkSendEmail` and the select-all checkbox;
* `frontend/src/pages/TemplateBuilder.js` — the element array operations
  (`updateElement`, `deleteSelected`) and the QR element handlers;
* `frontend/src/pages/GenerateDiplomas.js` — `handleGenerate`;
* `frontend/src/pages/SettingsPage.js` — `handleTestEmail` and the
  test-email button.

JavaScript truthiness on strings is modelled by comparison with `""`,
absent values by `Option`, and the per-call HTTP effects by returning the
list of requests a handler issues alongside the new component state.
-/

namespace DiplomaApp

/-- An HTTP request as issued by the axios client: method, URL path
(relative to the backend origin) and the optional `Authorization` header
value. -/
structure Request where
  method : String
  path : String
  authHeader : Option String
deriving DecidableEq, Repr

/-! ## VerifyPage (`verifyAPI.verify`, `verifyDiploma`, `isValid`) -/

/-- `verifyAPI.verify` from `api.js`:
`axios.get(API + "/verify/" + certificateId)` — a GET with no headers
object at all, hence no `Authorization` header. -/
def verifyRequest (certificateId : String) : Request :=
  { method := "GET", path := "/api/verify/" ++ certificateId, authHeader := none }

/-- The body of a successful `/api/verify/{id}` response, reduced to the
field the page's verdict reads (`data.status`). -/
structure VerifyData where
  status : String
deriving DecidableEq, Repr

/-- Outcome of the single HTTP call made by `verifyDiploma`: either the
response data, or a failure carrying the HTTP status code when the error
has a response (`err.response?.status`). -/
inductive VerifyOutcome where
  | success (data : VerifyData)
  | failure (httpStatus : Option Nat)
deriving DecidableEq, Repr

/-- The `VerifyPage` state touched by `verifyDiploma`: `data`, `error`
(`'notFound'` or `'failed'`) and `loading`. -/
structure VerifyState where
  data : Option VerifyData
  error : Option String
  loading : Bool
deriving DecidableEq, Repr

/-- `VerifyPage.verifyDiploma`: issues exactly the one request
`verifyAPI.verify(certificateId)`; on success stores the response data, on
failure sets `error` to `'notFound'` when the HTTP status is 404 and to
`'failed'` otherwise; `loading` ends `false` in every case (the `finally`
block). -/
def verifyDiploma (certificateId : String) (outcome : VerifyOutcome) :
    List Request × VerifyState :=
  ([verifyRequest certificateId],
   match outcome with
   | .success d => { data := some d, error := none, loading := false }
   | .failure httpStatus =>
       { data := none
         error := some (if httpStatus = some 404 then "notFound" else "failed")
         loading := false })

/-- `VerifyPage.isValid`: `data?.status === 'valid'`. -/
def isValid (st : VerifyState) : Bool :=
  match st.data with
  | some d => d.status = "valid"
  | none => false

/-- What the `VerifyPage` render tree shows: the loading skeleton, the
error card (with the error kind), or the result banner with the computed
validity. -/
inductive VerifyView where
  | loadingView
  | errorView (kind : String)
  | resultView (valid : Bool)
deriving DecidableEq, Repr

/-- The `VerifyPage` render logic: `if (loading) ...; if (error) ...;`
otherwise the banner driven by `isValid`. -/
def renderVerifyPage (st : VerifyState) : VerifyView :=
  if st.loading then .loadingView
  else
    match st.error with
    | some e => .errorView e
    | none => .resultView (isValid st)

/-! ## Diplomas page (`handleSelectAll`, `handleBulkSendEmail`) -/

/-- A row of the diplomas table, reduced to the fields the bulk-email and
selection logic touch. -/
structure Diploma where
  id : String
  email_sent : Bool
deriving DecidableEq, Repr

/-- One entry of `response.data.results` of
`POST /api/diplomas/send-bulk-email`. -/
structure BulkResult where
  id : String
  success : Bool
deriving DecidableEq, Repr

/-- The response body of `POST /api/diplomas/send-bulk-email`:
`{ sent, failed, results }`. -/
structure BulkResponse where
  sent : Nat
  failed : Nat
  results : List BulkResult
deriving DecidableEq, Repr

/-- `diplomasAPI.sendBulkEmail(diplomaIds)`: one POST to
`/api/diplomas/send-bulk-email` whose body is `{ diploma_ids: diplomaIds }`. -/
structure BulkEmailRequest where
  path : String
  diploma_ids : List String
deriving DecidableEq, Repr

def sendBulkEmail (diplomaIds : List String) : BulkEmailRequest :=
  { path := "/api/diplomas/send-bulk-email", diploma_ids := diplomaIds }

/-- The `Diplomas` page state touched by the bulk-email handler. -/
structure DiplomasState where
  diplomas : List Diploma
  selectedDiplomas : List String
deriving DecidableEq, Repr

/-- `sentIds` as computed in `handleBulkSendEmail`:
`response.data.results.filter(r => r.success).map(r => r.id)`. -/
def sentIds (resp : BulkResponse) : List String :=
  (resp.results.filter (fun r => r.success)).map (fun r => r.id)

/-- `Diplomas.handleBulkSendEmail`.  Guard: an empty selection returns at
once, issuing no request.  Otherwise one `sendBulkEmail` POST carries the
whole selection; on a response, when `sent > 0` every diploma whose id is
among the successful results is marked `email_sent`, and the selection is
cleared; when the request itself errors (the `catch` branch) the state is
left as it was. -/
def handleBulkSendEmail (st : DiplomasState)
    (outcome : Except Unit BulkResponse) :
    List BulkEmailRequest × DiplomasState :=
  if st.selectedDiplomas.length = 0 then ([], st)
  else
    ([sendBulkEmail st.selectedDiplomas],
     match outcome with
     | .ok resp =>
         { diplomas :=
             if resp.sent > 0 then
               st.diplomas.map (fun d =>
                 if (sentIds resp).contains d.id then
                   { d with email_sent := true }
                 else d)
             else st.diplomas
           selectedDiplomas := [] }
     | .error _ => st)

/-! ## Template builder (`updateElement`, `deleteSelected`, QR handlers) -/

/-- A canvas element of the template builder.  The layout is a flat
`List Element`; optional props (`text`, `qrSize`, image dimensions, ...)
are `Option`s, matching the `undefined` fields produced by `addElement`.
The `variable` prop of the source is renamed `variableName` (Lean reserves
the word). -/
structure Element where
  id : String
  type : String
  variableName : Option String
  x : ℚ
  y : ℚ
  text : Option String
  fontSize : Int
  rotation : ℚ
  opacity : ℚ
  qrSize : Option Int
  qrColor : Option String
  imageUrl : Option String
  imageWidth : Option Int
  imageHeight : Option Int
deriving DecidableEq, Repr

/-- `TemplateBuilder.updateElement(updatedElement)`:
`prev.map(el => el.id === updatedElement.id ? updatedElement : el)`. -/
def updateElement (elements : List Element) (updatedElement : Element) :
    List Element :=
  elements.map (fun el => if el.id = updatedElement.id then updatedElement else el)

/-- `TemplateBuilder.deleteSelected`: `if (!selectedId) return;` (a `null`
or empty selection is falsy and leaves everything unchanged); otherwise
removes the elements whose id equals `selectedId` and clears the
selection.  Result: the new element list and the new `selectedId`. -/
def deleteSelected (selectedId : Option String) (elements : List Element) :
    List Element × Option String :=
  match selectedId with
  | none => (elements, none)
  | some sid =>
      if sid = "" then (elements, some sid)
      else (elements.filter (fun el => el.id ≠ sid), none)

/-- `element.qrSize || 100` under JavaScript truthiness: `undefined` and
`0` both fall back to `100`. -/
def qrSizeOr100 (qrSize : Option Int) : Int :=
  match qrSize with
  | none => 100
  | some s => if s = 0 then 100 else s

/-- `QRCodeElement.onDragEnd`:
`onChange({ ...element, x: e.target.x(), y: e.target.y() })`. -/
def qrDragEnd (element : Element) (newX newY : ℚ) : Element :=
  { element with x := newX, y := newY }

/-- `QRCodeElement.onTransformEnd`: reads the node scale, computes
`newSize = Math.round(size * Math.max(scaleX, scaleY))` from the rendered
size `element.qrSize || 100`, resets the scale, and stores
`qrSize: Math.max(50, Math.min(400, newSize))` together with the node
position. -/
def qrTransformEnd (element : Element) (nodeX nodeY scaleX scaleY : ℚ) :
    Element :=
  let size : Int := qrSizeOr100 element.qrSize
  let newSize : Int := round ((size : ℚ) * max scaleX scaleY)
  { element with
    x := nodeX
    y := nodeY
    qrSize := some (max 50 (min 400 newSize)) }

/-- A Konva transformer bounding box (only the dimensions matter to the
QR `boundBoxFunc`). -/
structure Box where
  width : ℚ
  height : ℚ
deriving DecidableEq, Repr

/-- The QR element transformer's `boundBoxFunc`: keep `oldBox` whenever
the new box's width or height falls below 50 or above 400, else accept
`newBox`. -/
def qrBoundBoxFunc (oldBox newBox : Box) : Box :=
  if newBox.width < 50 ∨ newBox.height < 50 then oldBox
  else if newBox.width > 400 ∨ newBox.height > 400 then oldBox
  else newBox

/-- The props of the QR size `Slider` in the properties panel. -/
structure SliderConfig where
  min : Int
  max : Int
  step : Int
deriving DecidableEq, Repr

/-- The `qr-size-slider`: `min={50} max={400} step={10}`. -/
def qrSizeSlider : SliderConfig := { min := 50, max := 400, step := 10 }

/-! ## Route table (`App.js` / `AppRoutes`) and the verification URL -/

/-- One `<Route>` of `AppRoutes`: its path pattern and whether its element
is wrapped in `ProtectedRoute`. -/
structure RouteEntry where
  path : String
  isProtected : Bool
deriving DecidableEq, Repr

/-- The `AppRoutes` route table of `App.js`, in source order: the three
public routes, the protected routes, each wrapped in `ProtectedRoute`
(the catch-all `*` redirect is modelled separately). -/
def appRoutes : List RouteEntry :=
  [⟨"/login", false⟩,
   ⟨"/register", false⟩,
   ⟨"/verify/:certificateId", false⟩,
   ⟨"/", true⟩,
   ⟨"/courses", true⟩,
   ⟨"/courses/new", true⟩,
   ⟨"/courses/:id/edit", true⟩,
   ⟨"/templates", true⟩,
   ⟨"/templates/new", true⟩,
   ⟨"/templates/:id/edit", true⟩,
   ⟨"/recipients", true⟩,
   ⟨"/generate", true⟩,
   ⟨"/diplomas", true⟩,
   ⟨"/scan-logs", true⟩,
   ⟨"/users", true⟩,
   ⟨"/settings", true⟩,
   ⟨"/email-templates", true⟩]

/-- `VerifyPage.verificationUrl`:
the template literal `window.location.origin + "/verify/" + certificateId`. -/
def verificationUrl (origin certificateId : String) : String :=
  origin ++ "/verify/" ++ certificateId

/-- The value encoded by the `<QRCode value={verificationUrl} ... />`
element of `VerifyPage`. -/
def verifyQRValue (origin certificateId : String) : String :=
  verificationUrl origin certificateId

/-- The `certificateId` route param that `/verify/:certificateId` reads
from a URL on the given origin: the characters after the origin and the
`/verify/` prefix (`useParams()` in `VerifyPage`). -/
def extractCertificateId (origin url : String) : String :=
  String.mk (url.data.drop (origin.data.length + 8))

/-! ## The axios API client (`api.js`, plus the direct axios calls of
`UsersPage.js` and `SettingsPage.js`) -/

/-- `getAuthHeader` from `api.js` (repeated verbatim in `UsersPage.js` and
`SettingsPage.js`): reads `localStorage.getItem('token')` and returns
`{ Authorization: "Bearer " + token }` when the token is truthy (a stored
empty string is falsy) and the empty headers object otherwise.  The result
is the value of the `Authorization` header, `none` meaning no header. -/
def getAuthHeader (token : Option String) : Option String :=
  match token with
  | none => none
  | some t => if t = "" then none else some ("Bearer " ++ t)

/-- One client API operation: its dotted name in the source, HTTP method,
path, and the `Authorization` header it attaches. -/
structure ApiCall where
  name : String
  method : String
  path : String
  authHeader : Option String
deriving DecidableEq, Repr

/-- Every HTTP operation of the client, from `api.js` plus the direct
axios calls of `UsersPage.js`, with the header expression each call site
passes (`getAuthHeader()` or nothing).  `token` is the stored token,
`id` stands in for the route/query parameter of the parameterised calls
(query-string building for the list filters is elided). -/
def apiCalls (token : Option String) (id : String) : List ApiCall :=
  [⟨"auth.login", "POST", "/api/auth/login", none⟩,
   ⟨"auth.register", "POST", "/api/auth/register", none⟩,
   ⟨"auth.getMe", "GET", "/api/auth/me", getAuthHeader token⟩,
   ⟨"courses.getAll", "GET", "/api/courses", getAuthHeader token⟩,
   ⟨"courses.getById", "GET", "/api/courses/" ++ id, getAuthHeader token⟩,
   ⟨"courses.create", "POST", "/api/courses", getAuthHeader token⟩,
   ⟨"courses.update", "PUT", "/api/courses/" ++ id, getAuthHeader token⟩,
   ⟨"courses.delete", "DELETE", "/api/courses/" ++ id, getAuthHeader token⟩,
   ⟨"courses.downloadAllDiplomas", "GET",
     "/api/courses/" ++ id ++ "/download-all-diplomas", getAuthHeader token⟩,
   ⟨"templates.getAll", "GET", "/api/templates", getAuthHeader token⟩,
   ⟨"templates.getById", "GET", "/api/templates/" ++ id, getAuthHeader token⟩,
   ⟨"templates.create", "POST", "/api/templates", getAuthHeader token⟩,
   ⟨"templates.update", "PUT", "/api/templates/" ++ id, getAuthHeader token⟩,
   ⟨"templates.delete", "DELETE", "/api/templates/" ++ id,
     getAuthHeader token⟩,
   ⟨"templates.duplicate", "POST", "/api/templates/" ++ id ++ "/duplicate",
     getAuthHeader token⟩,
   ⟨"recipients.getAll", "GET", "/api/recipients", getAuthHeader token⟩,
   ⟨"recipients.create", "POST", "/api/recipients", getAuthHeader token⟩,
   ⟨"recipients.delete", "DELETE", "/api/recipients/" ++ id,
     getAuthHeader token⟩,
   ⟨"recipients.bulkImport", "POST", "/api/recipients/bulk",
     getAuthHeader token⟩,
   ⟨"recipients.downloadTemplate", "GET", "/api/recipients/csv-template",
     getAuthHeader token⟩,
   ⟨"diplomas.getAll", "GET", "/api/diplomas", getAuthHeader token⟩,
   ⟨"diplomas.getById", "GET", "/api/diplomas/" ++ id, getAuthHeader token⟩,
   ⟨"diplomas.generate", "POST", "/api/diplomas/generate",
     getAuthHeader token⟩,
   ⟨"diplomas.revoke", "POST", "/api/diplomas/" ++ id ++ "/revoke",
     getAuthHeader token⟩,
   ⟨"diplomas.reactivate", "POST", "/api/diplomas/" ++ id ++ "/reactivate",
     getAuthHeader token⟩,
   ⟨"diplomas.delete", "DELETE", "/api/diplomas/" ++ id,
     getAuthHeader token⟩,
   ⟨"diplomas.getData", "GET", "/api/diplomas/" ++ id ++ "/data", none⟩,
   ⟨"diplomas.downloadPdf", "GET", "/api/diplomas/" ++ id ++ "/download-pdf",
     getAuthHeader token⟩,
   ⟨"diplomas.downloadPdfPublic", "GET",
     "/api/diplomas/by-certificate/" ++ id ++ "/download-pdf", none⟩,
   ⟨"diplomas.sendEmail", "POST", "/api/diplomas/" ++ id ++ "/send-email",
     getAuthHeader token⟩,
   ⟨"diplomas.sendBulkEmail", "POST", "/api/diplomas/send-bulk-email",
     getAuthHeader token⟩,
   ⟨"settings.get", "GET", "/api/settings", getAuthHeader token⟩,
   ⟨"settings.update", "PUT", "/api/settings", getAuthHeader token⟩,
   ⟨"settings.testEmail", "POST", "/api/settings/test-email",
     getAuthHeader token⟩,
   ⟨"settings.getPublic", "GET", "/api/settings/public", none⟩,
   ⟨"emailTemplates.getAll", "GET", "/api/email-templates",
     getAuthHeader token⟩,
   ⟨"emailTemplates.get", "GET", "/api/email-templates/" ++ id,
     getAuthHeader token⟩,
   ⟨"emailTemplates.create", "POST", "/api/email-templates",
     getAuthHeader token⟩,
   ⟨"emailTemplates.update", "PUT", "/api/email-templates/" ++ id,
     getAuthHeader token⟩,
   ⟨"emailTemplates.delete", "DELETE", "/api/email-templates/" ++ id,
     getAuthHeader token⟩,
   ⟨"emailTemplates.duplicate", "POST",
     "/api/email-templates/" ++ id ++ "/duplicate", getAuthHeader token⟩,
   ⟨"emailTemplates.preview", "POST", "/api/email-templates/preview",
     getAuthHeader token⟩,
   ⟨"verify.verify", "GET", "/api/verify/" ++ id, none⟩,
   ⟨"dashboard.getStats", "GET", "/api/dashboard", getAuthHeader token⟩,
   ⟨"scanLogs.getAll", "GET", "/api/scan-logs", getAuthHeader token⟩,
   ⟨"scanLogs.clear", "DELETE", "/api/scan-logs/clear",
     getAuthHeader token⟩,
   ⟨"upload.upload", "POST", "/api/upload", getAuthHeader token⟩,
   ⟨"seed.seed", "POST", "/api/seed", none⟩,
   ⟨"users.fetchUsers", "GET", "/api/users", getAuthHeader token⟩,
   ⟨"users.create", "POST", "/api/users", getAuthHeader token⟩,
   ⟨"users.update", "PUT", "/api/users/" ++ id, getAuthHeader token⟩,
   ⟨"users.delete", "DELETE", "/api/users/" ++ id, getAuthHeader token⟩]

/-- The operations the claim names as public (attaching no Authorization
header): login, register, verify, public settings, public PDF download by
certificate, diploma data, and seed. -/
def publicOps : List String :=
  ["auth.login", "auth.register", "verify.verify", "settings.getPublic",
   "diplomas.downloadPdfPublic", "diplomas.getData", "seed.seed"]

/-! ## GenerateDiplomas (`handleGenerate`) -/

/-- The `GenerateDiplomas` wizard state touched by `handleGenerate`:
the selections (courses and templates start as the falsy `''`), the
current step, and the generated-diploma list shown on step 4. -/
structure GenerateState where
  selectedCourse : String
  selectedTemplate : String
  selectedRecipients : List String
  step : Nat
  generatedDiplomas : List String
deriving DecidableEq, Repr

/-- The body of `diplomasAPI.generate`:
`{ course_id, template_id, recipient_ids }`. -/
structure GenerateRequest where
  course_id : String
  template_id : String
  recipient_ids : List String
deriving DecidableEq, Repr

/-- The response body of `POST /api/diplomas/generate`. -/
structure GenerateResponse where
  generated : Nat
  diplomas : List String
deriving DecidableEq, Repr

/-- `GenerateDiplomas.handleGenerate`.  Guard: with no course, no
template, or an empty recipient selection it toasts an error and returns —
no request, state unchanged.  Otherwise one POST carries the selections;
on a response with `generated > 0` the wizard stores the diplomas and
advances to step 4, and in every other case (zero generated, or the
`catch` branch) the state is left as it was. -/
def handleGenerate (st : GenerateState)
    (outcome : Except Unit GenerateResponse) :
    List GenerateRequest × GenerateState :=
  if st.selectedCourse = "" ∨ st.selectedTemplate = "" ∨
      st.selectedRecipients.length = 0 then
    ([], st)
  else
    ([{ course_id := st.selectedCourse
        template_id := st.selectedTemplate
        recipient_ids := st.selectedRecipients }],
     match outcome with
     | .ok resp =>
         if resp.generated > 0 then
           { st with
             generatedDiplomas := resp.diplomas
             step := 4 }
         else st
     | .error _ => st)

/-! ## Select-all checkbox (`Diplomas.handleSelectAll`) -/

/-- `Diplomas.handleSelectAll(checked)`: overwrites the selection with
every listed diploma id when checked and with the empty list otherwise
(the previous selection is ignored by the handler, so it appears as an
unused argument). -/
def handleSelectAll (diplomas : List Diploma) (checked : Bool)
    (_selectedDiplomas : List String) : List String :=
  if checked then diplomas.map (fun d => d.id) else []

/-- The header checkbox's `checked` prop:
`selectedDiplomas.length === diplomas.length && diplomas.length > 0`. -/
def selectAllChecked (diplomas : List Diploma)
    (selectedDiplomas : List String) : Bool :=
  decide (selectedDiplomas.length = diplomas.length) &&
    decide (0 < diplomas.length)

/-! ## Settings page (`handleTestEmail`, test email button) -/

/-- The email block of the `SettingsPage` settings state. -/
structure EmailSettings where
  email_enabled : Bool
  smtp_host : String
  smtp_port : String
  smtp_user : String
  smtp_password : String
  smtp_from_name : String
  smtp_from_email : String
deriving DecidableEq, Repr

/-- `SettingsPage.handleTestEmail`: toasts an error and returns — issuing
no request — unless both `smtp_user` and `smtp_password` are truthy;
otherwise one authenticated POST to `/api/settings/test-email`.  Returns
the requests issued. -/
def handleTestEmail (token : Option String) (settings : EmailSettings) :
    List Request :=
  if settings.smtp_user = "" ∨ settings.smtp_password = "" then []
  else [{ method := "POST", path := "/api/settings/test-email",
          authHeader := getAuthHeader token }]

/-- The `test-email-btn`'s `disabled` prop:
`testing || !settings.smtp_user || !settings.smtp_password`. -/
def testEmailDisabled (testing : Bool) (settings : EmailSettings) : Bool :=
  testing || decide (settings.smtp_user = "") ||
    decide (settings.smtp_password = "")

/-! ## `ProtectedRoute` and the catch-all route -/

/-- The authenticated user of `AuthContext` (only presence matters). -/
structure User where
  email : String
deriving DecidableEq, Repr

/-- What a route element renders. -/
inductive Rendered where
  | loadingPlaceholder
  | redirect (target : String)
  | layoutPage
  | publicPage
deriving DecidableEq, Repr

/-- The `ProtectedRoute` wrapper of `App.js`: the animated loading
placeholder while `loading`, a `<Navigate to="/login" replace />` when
there is no user, and the wrapped page inside `<Layout>` otherwise. -/
def ProtectedRoute (loading : Bool) (user : Option User) : Rendered :=
  if loading then .loadingPlaceholder
  else
    match user with
    | none => .redirect "/login"
    | some _ => .layoutPage

/-- What a route of `AppRoutes` renders: protected routes go through
`ProtectedRoute`, public routes render their page directly. -/
def routeRender (r : RouteEntry) (loading : Bool) (user : Option User) :
    Rendered :=
  if r.isProtected then ProtectedRoute loading user else .publicPage

/-- The catch-all `<Route path="*" element={<Navigate to="/" replace />} />`. -/
def catchAllRoute : Rendered := .redirect "/"

/-- A concrete text element, used by the closed witnesses below. -/
def sampleElement (id : String) : Element :=
  { id := id, type := "text", variableName := none, x := 0, y := 0,
    text := some "Sample Text", fontSize := 24, rotation := 0, opacity := 1,
    qrSize := none, qrColor := none, imageUrl := none, imageWidth := none,
    imageHeight := none }

/-- A concrete QR canvas element with a 120-pixel QR code. -/
def qrSampleElement : Element :=
  { sampleElement "q" with
    type := "variable"
    variableName := some "qr_code"
    qrSize := some 120
    qrColor := some "#000000" }

/-- C1: the public verification operation issues exactly one HTTP GET to
`/api/verify/{certificateId}` with no Authorization header, and the page
verdict is a function of that one response: valid banner iff the status
field is `'valid'`, `notFound` error iff the request failed with HTTP 404,
`failed` error iff it failed with any other status, and an error view is
shown iff the request failed. -/
theorem verify_single_get_and_verdict (certificateId : String)
    (outcome : VerifyOutcome) :
    (verifyDiploma certificateId outcome).1 =
      [{ method := "GET", path := "/api/verify/" ++ certificateId,
         authHeader := none }] ∧
    (renderVerifyPage (verifyDiploma certificateId outcome).2 =
        .resultView true ↔ outcome = .success ⟨"valid"⟩) ∧
    (renderVerifyPage (verifyDiploma certificateId outcome).2 =
        .errorView "notFound" ↔ outcome = .failure (some 404)) ∧
    (renderVerifyPage (verifyDiploma certificateId outcome).2 =
        .errorView "failed" ↔
      ∃ s, outcome = .failure s ∧ s ≠ some 404) ∧
    ((∃ k, renderVerifyPage (verifyDiploma certificateId outcome).2 =
        .errorView k) ↔ ∃ s, outcome = .failure s) := by
  refine ⟨rfl, ?_, ?_, ?_, ?_⟩ <;>
    rcases outcome with ⟨⟨s⟩⟩ | hs
  · simp [verifyDiploma, renderVerifyPage, isValid, VerifyData.mk.injEq]
  · rcases eq_or_ne hs (some 404) with h | h <;>
      simp [verifyDiploma, renderVerifyPage, isValid, h]
  · simp [verifyDiploma, renderVerifyPage, isValid]
  · rcases eq_or_ne hs (some 404) with h | h <;>
      simp [verifyDiploma, renderVerifyPage, isValid, h]
  · simp [verifyDiploma, renderVerifyPage, isValid]
  · rcases eq_or_ne hs (some 404) with h | h <;>
      simp [verifyDiploma, renderVerifyPage, isValid, h]
  · simp [verifyDiploma, renderVerifyPage, isValid]
  · simp [verifyDiploma, renderVerifyPage, isValid]

/-- C2: bulk email sending submits the whole selection in one POST to
`/api/diplomas/send-bulk-email` whenever the selection is non-empty (and
makes no request when it is empty), then — given a response whose `sent`
counter agrees with its per-item results — ends with every diploma marked
`email_sent` exactly when it was already sent or its result reports
`success`, and with the selection cleared. -/
theorem bulk_email_single_post_marks_successes (st : DiplomasState)
    (resp : BulkResponse)
    (hsent : resp.sent = (resp.results.filter (fun r => r.success)).length) :
    (∀ outcome, st.selectedDiplomas = [] →
      handleBulkSendEmail st outcome = ([], st)) ∧
    (st.selectedDiplomas ≠ [] →
      (∀ outcome, (handleBulkSendEmail st outcome).1 =
        [{ path := "/api/diplomas/send-bulk-email",
           diploma_ids := st.selectedDiplomas }]) ∧
      (handleBulkSendEmail st (.ok resp)).2.selectedDiplomas = [] ∧
      (handleBulkSendEmail st (.ok resp)).2.diplomas.length =
        st.diplomas.length ∧
      ∀ i (h1 : i < st.diplomas.length)
        (h2 : i < (handleBulkSendEmail st (.ok resp)).2.diplomas.length),
        ((handleBulkSendEmail st (.ok resp)).2.diplomas.get ⟨i, h2⟩).id =
          (st.diplomas.get ⟨i, h1⟩).id ∧
        ((handleBulkSendEmail st (.ok resp)).2.diplomas.get
            ⟨i, h2⟩).email_sent =
          ((st.diplomas.get ⟨i, h1⟩).email_sent ||
            (sentIds resp).contains (st.diplomas.get ⟨i, h1⟩).id)) := by
  constructor
  · intro outcome h
    simp [handleBulkSendEmail, h]
  · intro hne
    have hlen : ¬ st.selectedDiplomas.length = 0 := by
      simpa [List.length_eq_zero] using hne
    refine ⟨?_, ?_, ?_, ?_⟩
    · intro outcome
      simp [handleBulkSendEmail, hlen, sendBulkEmail]
    · rcases hzero : resp.sent with _ | n <;>
        simp [handleBulkSendEmail, hlen, hzero]
    · rcases hzero : resp.sent with _ | n <;>
        simp [handleBulkSendEmail, hlen, hzero]
    · intro i h1 h2
      rcases hzero : resp.sent with _ | n
      · have hres : resp.results.filter (fun r => r.success) = [] := by
          rw [hzero] at hsent
          exact (List.length_eq_zero.mp hsent.symm)
        have hids : sentIds resp = [] := by simp [sentIds, hres]
        simp [handleBulkSendEmail, hlen, hzero, hids]
      · by_cases hc : st.diplomas[i].id ∈ sentIds resp <;>
          simp [handleBulkSendEmail, hlen, hzero, hc]

/-- Closed witness for `bulk_email_single_post_marks_successes`: a state
with two diplomas and a non-empty selection, and a response where the
first send succeeded and the second failed. -/
theorem bulk_email_single_post_marks_successes_witness :
    (handleBulkSendEmail
        { diplomas := [⟨"d1", false⟩, ⟨"d2", false⟩],
          selectedDiplomas := ["d1", "d2"] }
        (.ok { sent := 1, failed := 1,
               results := [⟨"d1", true⟩, ⟨"d2", false⟩] })).2.diplomas =
      [⟨"d1", true⟩, ⟨"d2", false⟩] ∧
    (handleBulkSendEmail
        { diplomas := [⟨"d1", false⟩, ⟨"d2", false⟩],
          selectedDiplomas := ["d1", "d2"] }
        (.ok { sent := 1, failed := 1,
               results := [⟨"d1", true⟩, ⟨"d2", false⟩] })).2.selectedDiplomas
      = [] := by
  have h := bulk_email_single_post_marks_successes
    { diplomas := [⟨"d1", false⟩, ⟨"d2", false⟩],
      selectedDiplomas := ["d1", "d2"] }
    { sent := 1, failed := 1, results := [⟨"d1", true⟩, ⟨"d2", false⟩] }
    (by decide)
  have h2 := (h.2 (by decide)).2.1
  exact ⟨by decide, h2⟩

/-- C3: `updateElement` is a pure frame operation on the flat element
array — the length is unchanged and the element at every position is
replaced by the update exactly when its id matches, and kept identical
otherwise (so order is preserved); `deleteSelected` with a (truthy)
selection keeps exactly the elements whose id differs from the selection,
and with no selection changes nothing. -/
theorem update_element_frame_and_delete_exact :
    ∀ (elements : List Element) (updatedElement : Element),
    (updateElement elements updatedElement).length = elements.length ∧
    (∀ i (h1 : i < elements.length)
        (h2 : i < (updateElement elements updatedElement).length),
      (updateElement elements updatedElement).get ⟨i, h2⟩ =
        if (elements.get ⟨i, h1⟩).id = updatedElement.id then updatedElement
        else elements.get ⟨i, h1⟩) ∧
    (∀ sid : String, sid ≠ "" → ∀ el : Element,
      el ∈ (deleteSelected (some sid) elements).1 ↔
        el ∈ elements ∧ el.id ≠ sid) ∧
    deleteSelected none elements = (elements, none) := by
  intro elements updatedElement
  refine ⟨by simp [updateElement], ?_, ?_, rfl⟩
  · intro i h1 h2
    simp [updateElement]
  · intro sid hsid el
    simp [deleteSelected, hsid, List.mem_filter]

/-- Closed witness for `update_element_frame_and_delete_exact`: updating
id `"b"` in a one-element array keeps the mismatching element, and
deleting selection `"b"` keeps the element with id `"a"`. -/
theorem update_element_frame_and_delete_exact_witness :
    ((updateElement [sampleElement "a"] (sampleElement "b")).get
        ⟨0, by decide⟩ = sampleElement "a") ∧
    sampleElement "a" ∈
      (deleteSelected (some "b") [sampleElement "a", sampleElement "b"]).1 := by
  have h := update_element_frame_and_delete_exact
  constructor
  · have hi := (h [sampleElement "a"] (sampleElement "b")).2.1 0 (by decide)
      (by decide)
    simpa [sampleElement] using hi
  · exact ((h [sampleElement "a", sampleElement "b"]
      (sampleElement "a")).2.2.1 "b" (by decide) (sampleElement "a")).mpr
      ⟨by decide, by decide⟩

/-- C4: the QR handlers preserve `50 ≤ qrSize ≤ 400` — a drag leaves
`qrSize` (and the id) untouched and only moves the element; a transform
stores exactly the clamp `max(50, min(400, newSize))`, which always lands
in `[50, 400]`; the transformer's bound-box function accepts a box exactly
when both dimensions lie in `[50, 400]` and keeps the old box otherwise;
and the size slider is configured with `min = 50`, `max = 400`. -/
theorem qr_size_invariant :
    (∀ (el : Element) (nx ny : ℚ),
      (qrDragEnd el nx ny).qrSize = el.qrSize ∧
      (qrDragEnd el nx ny).id = el.id ∧
      (qrDragEnd el nx ny).x = nx ∧ (qrDragEnd el nx ny).y = ny) ∧
    (∀ (el : Element) (nx ny sx sy : ℚ),
      (qrTransformEnd el nx ny sx sy).qrSize =
        some (max 50 (min 400
          (round ((qrSizeOr100 el.qrSize : ℚ) * max sx sy)))) ∧
      ∀ v : Int, (qrTransformEnd el nx ny sx sy).qrSize = some v →
        50 ≤ v ∧ v ≤ 400) ∧
    (∀ oldBox newBox : Box,
      (50 ≤ newBox.width ∧ newBox.width ≤ 400 ∧
       50 ≤ newBox.height ∧ newBox.height ≤ 400 →
        qrBoundBoxFunc oldBox newBox = newBox) ∧
      (newBox.width < 50 ∨ newBox.height < 50 ∨
       newBox.width > 400 ∨ newBox.height > 400 →
        qrBoundBoxFunc oldBox newBox = oldBox)) ∧
    qrSizeSlider.min = 50 ∧ qrSizeSlider.max = 400 := by
  refine ⟨?_, ?_, ?_, rfl, rfl⟩
  · intro el nx ny
    exact ⟨rfl, rfl, rfl, rfl⟩
  · intro el nx ny sx sy
    refine ⟨rfl, ?_⟩
    intro v hv
    have hv2 : max 50 (min 400
        (round ((qrSizeOr100 el.qrSize : ℚ) * max sx sy))) = v := by
      simpa [qrTransformEnd] using hv
    constructor
    · rw [← hv2]; exact le_max_left _ _
    · rw [← hv2]
      exact max_le (by norm_num) (min_le_left _ _)
  · intro oldBox newBox
    constructor
    · rintro ⟨h1, h2, h3, h4⟩
      have hno1 : ¬ (newBox.width < 50 ∨ newBox.height < 50) := by
        push_neg
        exact ⟨h1, h3⟩
      have hno2 : ¬ (newBox.width > 400 ∨ newBox.height > 400) := by
        push_neg
        exact ⟨h2, h4⟩
      simp [qrBoundBoxFunc, hno1, hno2]
    · intro h
      rcases h with h | h | h | h <;> simp [qrBoundBoxFunc, h]

/-- Closed witness for `qr_size_invariant`: a transform that scales the
120-pixel QR by 4 clamps its size to 400, inside the invariant; the
bound-box function rejects a 30×30 box and accepts a 100×100 one. -/
theorem qr_size_invariant_witness :
    ((qrTransformEnd qrSampleElement 0 0 4 4).qrSize = some 400 ∧
      50 ≤ (400 : Int) ∧ (400 : Int) ≤ 400) ∧
    qrBoundBoxFunc ⟨100, 100⟩ ⟨30, 30⟩ = ⟨100, 100⟩ ∧
    qrBoundBoxFunc ⟨100, 100⟩ ⟨100, 100⟩ = ⟨100, 100⟩ := by
  have h := qr_size_invariant
  have hval : (qrTransformEnd qrSampleElement 0 0 4 4).qrSize = some 400 := by
    have h0 := (h.2.1 qrSampleElement 0 0 4 4).1
    rw [h0]
    norm_num [qrSampleElement, sampleElement, qrSizeOr100, round_eq]
  refine ⟨⟨hval, (h.2.1 qrSampleElement 0 0 4 4).2 400 hval⟩,
    (h.2.2.1 ⟨100, 100⟩ ⟨30, 30⟩).2 ?_,
    (h.2.2.1 ⟨100, 100⟩ ⟨100, 100⟩).1 ?_⟩
  · left; norm_num
  · refine ⟨by norm_num, by norm_num, by norm_num, by norm_num⟩

/-- C5: the `/verify/:certificateId` route is registered among the public
routes (not wrapped in `ProtectedRoute`), the verification page's QR code
encodes exactly `origin ++ "/verify/" ++ certificateId`, and following
that URL makes the route extract the same certificate id — the QR code
round-trips on the certificate id. -/
theorem verify_route_public_and_qr_roundtrip :
    (⟨"/verify/:certificateId", false⟩ : RouteEntry) ∈ appRoutes ∧
    (∀ r ∈ appRoutes, r.path = "/verify/:certificateId" →
      r.isProtected = false) ∧
    (∀ origin certificateId : String,
      verifyQRValue origin certificateId =
        origin ++ "/verify/" ++ certificateId) ∧
    (∀ origin certificateId : String,
      extractCertificateId origin (verifyQRValue origin certificateId) =
        certificateId) := by
  refine ⟨by decide, by decide, fun origin certificateId => rfl, ?_⟩
  intro origin certificateId
  have hassoc : verifyQRValue origin certificateId =
      (origin ++ "/verify/") ++ certificateId := by
    simp [verifyQRValue, verificationUrl, String.append_assoc]
  have hdata : (verifyQRValue origin certificateId).data =
      (origin ++ "/verify/").data ++ certificateId.data := by
    rw [hassoc, String.data_append]
  have hlen : origin.data.length + 8 = (origin ++ "/verify/").data.length := by
    show origin.data.length + 8 = (origin.data ++ "/verify/".data).length
    simp [List.length_append]
  rw [extractCertificateId, hdata, hlen, List.drop_left]

/-- Closed witness for `verify_route_public_and_qr_roundtrip`: the
route-table membership hypothesis discharged at the verify route, and the
round-trip evaluated at a concrete origin and certificate id. -/
theorem verify_route_public_and_qr_roundtrip_witness :
    (⟨"/verify/:certificateId", false⟩ : RouteEntry) ∈ appRoutes ∧
    ((⟨"/verify/:certificateId", false⟩ : RouteEntry).isProtected = false) ∧
    extractCertificateId "https://academy.example"
      (verifyQRValue "https://academy.example" "CERT-2024-0001") =
      "CERT-2024-0001" := by
  have h := verify_route_public_and_qr_roundtrip
  have hmem := h.1
  exact ⟨hmem,
    h.2.1 ⟨"/verify/:certificateId", false⟩ hmem rfl,
    h.2.2.2 "https://academy.example" "CERT-2024-0001"⟩

/-- C6: every admin operation of the client attaches exactly
`Authorization: Bearer <token>` with the stored token, the public
operations (login, register, verify, public settings, public PDF download,
diploma data, seed) never attach it, and with no stored token no request
of the client carries an Authorization header at all. -/
theorem auth_header_thin_jwt_wrapper :
    getAuthHeader none = none ∧
    (∀ t : String, t ≠ "" → getAuthHeader (some t) = some ("Bearer " ++ t)) ∧
    (∀ (token : Option String) (id : String),
      (apiCalls token id).Forall (fun c =>
        (c.name ∈ publicOps → c.authHeader = none) ∧
        (c.name ∉ publicOps → c.authHeader = getAuthHeader token))) ∧
    (∀ id : String, (apiCalls none id).Forall (fun c => c.authHeader = none)) := by
  refine ⟨rfl, ?_, ?_, ?_⟩
  · intro t ht
    simp [getAuthHeader, ht]
  · intro token id
    simp [apiCalls, publicOps, List.Forall]
  · intro id
    simp [apiCalls, getAuthHeader, List.Forall]

/-- Closed witness for `auth_header_thin_jwt_wrapper`: a stored non-empty
token becomes a Bearer header, and the courses list call of `apiCalls`
attaches it while the login call attaches nothing. -/
theorem auth_header_thin_jwt_wrapper_witness :
    getAuthHeader (some "tok123") = some "Bearer tok123" ∧
    (apiCalls (some "tok123") "42").Forall (fun c =>
      (c.name ∈ publicOps → c.authHeader = none) ∧
      (c.name ∉ publicOps → c.authHeader = getAuthHeader (some "tok123"))) := by
  have h := auth_header_thin_jwt_wrapper
  exact ⟨h.2.1 "tok123" (by decide), h.2.2.1 (some "tok123") "42"⟩

/-- C7: clicking generate with a missing course, missing template, or
empty recipient selection issues no request and leaves the wizard state
unchanged; under the full precondition it issues exactly one POST carrying
precisely the selected `course_id`, `template_id` and `recipient_ids`, and
the wizard moves to the success step exactly on a response with
`generated > 0` (storing its diplomas), staying put otherwise. -/
theorem generate_guard_and_single_post (st : GenerateState)
    (outcome : Except Unit GenerateResponse) :
    ((st.selectedCourse = "" ∨ st.selectedTemplate = "" ∨
        st.selectedRecipients = []) →
      handleGenerate st outcome = ([], st)) ∧
    (st.selectedCourse ≠ "" → st.selectedTemplate ≠ "" →
      st.selectedRecipients ≠ [] →
      (handleGenerate st outcome).1 =
        [{ course_id := st.selectedCourse
           template_id := st.selectedTemplate
           recipient_ids := st.selectedRecipients }] ∧
      (∀ resp, outcome = .ok resp → 0 < resp.generated →
        (handleGenerate st outcome).2 =
          { st with
            generatedDiplomas := resp.diplomas
            step := 4 }) ∧
      ((∀ resp, outcome = .ok resp → resp.generated = 0) →
        (handleGenerate st outcome).2 = st)) := by
  constructor
  · intro h
    rcases h with h | h | h <;> simp [handleGenerate, h]
  · intro h1 h2 h3
    have h0 : ¬ (st.selectedCourse = "" ∨ st.selectedTemplate = "" ∨
        st.selectedRecipients = []) := by
      push_neg
      exact ⟨h1, h2, h3⟩
    refine ⟨by simp [handleGenerate, h0], ?_, ?_⟩
    · rintro resp rfl hgen
      simp [handleGenerate, h0, hgen]
    · intro hz
      rcases outcome with u | resp
      · simp [handleGenerate, h0]
      · have := hz resp rfl
        simp [handleGenerate, h0, this]

/-- Closed witness for `generate_guard_and_single_post`: with an empty
course nothing happens, and with a complete selection plus a response of
one generated diploma the wizard posts the selection and reaches step 4. -/
theorem generate_guard_and_single_post_witness :
    handleGenerate
      { selectedCourse := ""
        selectedTemplate := "t1"
        selectedRecipients := ["r1"]
        step := 3
        generatedDiplomas := [] } (.error ()) =
      ([], { selectedCourse := ""
             selectedTemplate := "t1"
             selectedRecipients := ["r1"]
             step := 3
             generatedDiplomas := [] }) ∧
    (handleGenerate
      { selectedCourse := "c1"
        selectedTemplate := "t1"
        selectedRecipients := ["r1"]
        step := 3
        generatedDiplomas := [] }
      (.ok { generated := 1, diplomas := ["d1"] })).2.step = 4 := by
  have hguard := (generate_guard_and_single_post
    { selectedCourse := ""
      selectedTemplate := "t1"
      selectedRecipients := ["r1"]
      step := 3
      generatedDiplomas := [] } (.error ())).1 (Or.inl rfl)
  have hmain := ((generate_guard_and_single_post
    { selectedCourse := "c1"
      selectedTemplate := "t1"
      selectedRecipients := ["r1"]
      step := 3
      generatedDiplomas := [] }
    (.ok { generated := 1, diplomas := ["d1"] })).2
    (by decide) (by decide) (by decide)).2.1
    { generated := 1, diplomas := ["d1"] } rfl (by decide)
  exact ⟨hguard, by rw [hmain]⟩

/-- C8: the select-all checkbox is an exact toggle over the listed
diplomas — checking selects precisely the listed diploma ids, unchecking
empties the selection, the header checkbox renders checked exactly when
the selection size equals the positive number of listed diplomas, and
select-all followed by deselect-all from any starting selection is the
empty selection. -/
theorem select_all_exact_toggle (diplomas : List Diploma)
    (selectedDiplomas : List String) :
    (∀ i : String, i ∈ handleSelectAll diplomas true selectedDiplomas ↔
      ∃ d ∈ diplomas, d.id = i) ∧
    handleSelectAll diplomas true selectedDiplomas =
      diplomas.map (fun d => d.id) ∧
    handleSelectAll diplomas false selectedDiplomas = [] ∧
    (selectAllChecked diplomas selectedDiplomas = true ↔
      selectedDiplomas.length = diplomas.length ∧ 0 < diplomas.length) ∧
    handleSelectAll diplomas false
      (handleSelectAll diplomas true selectedDiplomas) = [] := by
  refine ⟨?_, rfl, rfl, ?_, rfl⟩
  · intro i
    simp [handleSelectAll]
  · simp [selectAllChecked]

/-- C9: the test-email button is disabled whenever `smtp_user` or
`smtp_password` is empty, and `handleTestEmail` sends no request unless
both are non-empty — in which case it sends the one authenticated POST to
`/api/settings/test-email`. -/
theorem test_email_requires_smtp_credentials (settings : EmailSettings)
    (testing : Bool) (token : Option String) :
    (settings.smtp_user = "" ∨ settings.smtp_password = "" →
      testEmailDisabled testing settings = true ∧
      handleTestEmail token settings = []) ∧
    (handleTestEmail token settings ≠ [] →
      settings.smtp_user ≠ "" ∧ settings.smtp_password ≠ "") ∧
    (settings.smtp_user ≠ "" → settings.smtp_password ≠ "" →
      handleTestEmail token settings =
        [{ method := "POST", path := "/api/settings/test-email",
           authHeader := getAuthHeader token }]) := by
  refine ⟨?_, ?_, ?_⟩
  · intro h
    rcases h with h | h <;> simp [testEmailDisabled, handleTestEmail, h]
  · intro h
    by_cases h1 : settings.smtp_user = ""
    · exact absurd (by simp [handleTestEmail, h1]) h
    · by_cases h2 : settings.smtp_password = ""
      · exact absurd (by simp [handleTestEmail, h2]) h
      · exact ⟨h1, h2⟩
  · intro h1 h2
    simp [handleTestEmail, h1, h2]

/-- Closed witness for `test_email_requires_smtp_credentials`: with an
empty SMTP user the button is disabled and no request goes out; with both
credentials set the one test-email POST goes out. -/
theorem test_email_requires_smtp_credentials_witness :
    (testEmailDisabled false
        { email_enabled := true, smtp_host := "smtp.gmail.com",
          smtp_port := "587", smtp_user := "", smtp_password := "pw",
          smtp_from_name := "", smtp_from_email := "" } = true ∧
      handleTestEmail none
        { email_enabled := true, smtp_host := "smtp.gmail.com",
          smtp_port := "587", smtp_user := "", smtp_password := "pw",
          smtp_from_name := "", smtp_from_email := "" } = []) ∧
    handleTestEmail (some "tok")
        { email_enabled := true, smtp_host := "smtp.gmail.com",
          smtp_port := "587", smtp_user := "u", smtp_password := "pw",
          smtp_from_name := "", smtp_from_email := "" } =
      [{ method := "POST", path := "/api/settings/test-email",
         authHeader := getAuthHeader (some "tok") }] := by
  refine ⟨(test_email_requires_smtp_credentials
      { email_enabled := true, smtp_host := "smtp.gmail.com",
        smtp_port := "587", smtp_user := "", smtp_password := "pw",
        smtp_from_name := "", smtp_from_email := "" } false none).1
      (Or.inl rfl),
    (test_email_requires_smtp_credentials
      { email_enabled := true, smtp_host := "smtp.gmail.com",
        smtp_port := "587", smtp_user := "u", smtp_password := "pw",
        smtp_from_name := "", smtp_from_email := "" } false
      (some "tok")).2.2 (by decide) (by decide)⟩

/-- C10: `ProtectedRoute` shows the loading placeholder while the auth
state loads, redirects to `/login` exactly when loading is over and no
user is present, and renders the wrapped page inside the layout if and
only if a user is present; every route the table marks protected can
render its page only to a present user; the catch-all route redirects
to `/`. -/
theorem protected_route_guards (loading : Bool) (user : Option User) :
    (loading = true → ProtectedRoute loading user = .loadingPlaceholder) ∧
    (loading = false → user = none →
      ProtectedRoute loading user = .redirect "/login") ∧
    (ProtectedRoute loading user = .layoutPage ↔
      loading = false ∧ user ≠ none) ∧
    (∀ r ∈ appRoutes, r.isProtected = true →
      routeRender r loading user = .layoutPage → user ≠ none) ∧
    catchAllRoute = .redirect "/" := by
  refine ⟨?_, ?_, ?_, ?_, rfl⟩
  · intro h
    simp [ProtectedRoute, h]
  · intro h h2
    simp [ProtectedRoute, h, h2]
  · cases loading <;> rcases user with _ | u <;> simp [ProtectedRoute]
  · intro r _ hp hl
    rw [routeRender, if_pos hp] at hl
    cases loading <;> rcases user with _ | u <;>
      simp [ProtectedRoute] at hl ⊢

/-- Closed witness for `protected_route_guards`: a logged-in user on a
finished auth load gets the layout page, an anonymous visitor gets the
login redirect, and the dashboard route renders its page only with the
user present. -/
theorem protected_route_guards_witness :
    ProtectedRoute false (some ⟨"admin@orviti.com"⟩) = .layoutPage ∧
    ProtectedRoute false none = .redirect "/login" ∧
    (some (⟨"admin@orviti.com"⟩ : User) ≠ none) := by
  have h1 := (protected_route_guards false (some ⟨"admin@orviti.com"⟩)).2.2.1.mpr
    ⟨rfl, by decide⟩
  have h2 := (protected_route_guards false none).2.1 rfl rfl
  have h3 := (protected_route_guards false
      (some ⟨"admin@orviti.com"⟩)).2.2.2.1
    ⟨"/", true⟩ (by decide) rfl (by rw [routeRender, if_pos rfl, h1])
  exact ⟨h1, h2, h3⟩
